import Mathlib

/-
Shallow embedding of dean0x/silo (src/src/keychain.ts and the CLI entry
point).  The library routes credential operations between the always-unlocked
login keychain and a per-service protected keychain; protected operations run
an unlock/operate/lock protocol driven by the external `security` and
`osascript` commands.  Those external commands are modelled as a simulated
credential-store adapter: a `StoreState` record (existence flag, lock state,
credential lists, auto-lock flag and an event trace) together with an `Env`
oracle choosing the outcome of each fallible external call.  Every public
function of keychain.ts is translated line by line into a state-passing Lean
function over this model.
-/

namespace Silo

/-- Result type of keychain.ts: `{ ok: true; value } | { ok: false; error }`. -/
inductive Result (α : Type) where
  | ok (value : α)
  | err (error : String)
deriving Repr, DecidableEq

/-- SiloConfig from keychain.ts: a service name plus an optional
protection predicate overriding the default. -/
structure SiloConfig where
  service : String
  isProtected : Option (String → Bool) := none

/-- JS `String.prototype.includes`: substring containment test, realised as
"some suffix of `s` starts with `sub`". -/
def includes (s sub : String) : Bool :=
  s.data.tails.any (fun t => sub.data.isPrefixOf t)

/-- defaultIsProtected from keychain.ts line 31: true iff the account
contains the literal substring "production". -/
def defaultIsProtected (account : String) : Bool :=
  includes account "production"

/-- Left-trim of a character list (drop leading whitespace). -/
def trimLeftL (l : List Char) : List Char :=
  l.dropWhile Char.isWhitespace

/-- Right-trim of a character list (drop trailing whitespace). -/
def trimRightL (l : List Char) : List Char :=
  (l.reverse.dropWhile Char.isWhitespace).reverse

/-- JS `String.prototype.trim`: strip leading and trailing whitespace. -/
def jsTrim (s : String) : String :=
  String.mk (trimLeftL (trimRightL s.data))

/-- Credential record of the simulated store: a (service, account, value)
triple; (service, account) is the uniqueness key. -/
structure Cred where
  service : String
  account : String
  value : String
deriving Repr, DecidableEq

/-- External commands observable in a run, recorded in the trace.
`promptShown` is the osascript password dialog and `createCmd` the
interactive `security create-keychain`; both are human-facing prompts.
The Bool on add/find/delete records whether the command targeted the
protected keychain (true) or the default login keychain (false). -/
inductive Event where
  | promptShown
  | unlockCmd (password : String)
  | settingsCmd
  | addCmd (protStore : Bool) (account : String) (value : String)
  | findCmd (protStore : Bool) (account : String)
  | deleteCmd (protStore : Bool) (account : String)
  | lockCmd
  | createCmd
deriving Repr, DecidableEq

/-- State of the simulated credential stores. -/
structure StoreState where
  protectedExists : Bool
  locked : Bool
  protCreds : List Cred
  loginCreds : List Cred
  autoLockSet : Bool
  events : List Event
deriving Repr, DecidableEq

/-- Outcome of the osascript password dialog: either it prints text (the
entered password, possibly with surrounding whitespace before the code's
trim) or it throws with a message (cancellation throws a message containing
"User canceled" / "-128"). -/
inductive PromptResult where
  | text (raw : String)
  | thrown (msg : String)
deriving Repr, DecidableEq

/-- Oracle fixing the outcome of each fallible external command within one
public call; `some msg` means the command throws with message `msg`. -/
structure Env where
  prompt : PromptResult
  unlockFail : Option String
  settingsFail : Option String
  addFail : Option String
  findFail : Option String
  deleteFail : Option String
  createFail : Option String
deriving Repr, DecidableEq

/-- Append one event to the trace. -/
def emit (s : StoreState) (e : Event) : StoreState :=
  { s with events := s.events ++ [e] }

/-- lock from keychain.ts line 35: best-effort `security lock-keychain`;
in the simulated adapter locking always succeeds (its failure is swallowed
by the code and ignored by the model). -/
def lock (s : StoreState) : StoreState :=
  { emit s .lockCmd with locked := true }

/-- Key comparison for the (service, account) uniqueness key. -/
def credMatches (svc acct : String) (c : Cred) : Bool :=
  c.service == svc && c.account == acct

/-- Upsert semantics of `security add-generic-password -U`: re-adding the
same (service, account) overwrites. -/
def upsertCred (creds : List Cred) (svc acct val : String) : List Cred :=
  Cred.mk svc acct val :: creds.filter (fun c => !(credMatches svc acct c))

/-- Lookup of a credential value by (service, account). -/
def findCredVal (creds : List Cred) (svc acct : String) : Option String :=
  (creds.find? (credMatches svc acct)).map Cred.value

/-- Deletion of a credential by (service, account). -/
def removeCred (creds : List Cred) (svc acct : String) : List Cred :=
  creds.filter (fun c => !(credMatches svc acct c))

/-- Message the macOS security tool prints when an item is missing; the
facade detects not-found by the substring "could not be found". -/
def notFoundMsg : String :=
  "The specified item could not be found in the keychain."

/-- Simulated `osascript` password dialog (keychain.ts lines 95-103). -/
def runPrompt (env : Env) (s : StoreState) : Result String × StoreState :=
  let s1 := emit s .promptShown
  match env.prompt with
  | .text raw => (.ok raw, s1)
  | .thrown m => (.err m, s1)

/-- Simulated `security unlock-keychain -p password path`
(keychain.ts lines 105-108). -/
def unlockCmdRun (env : Env) (pw : String) (s : StoreState) :
    Result Unit × StoreState :=
  let s1 := emit s (.unlockCmd pw)
  match env.unlockFail with
  | some m => (.err m, s1)
  | none => (.ok (), { s1 with locked := false })

/-- Simulated `security set-keychain-settings -t 10 -l path`
(keychain.ts lines 109-112). -/
def setKeychainSettings (env : Env) (s : StoreState) :
    Result Unit × StoreState :=
  let s1 := emit s .settingsCmd
  match env.settingsFail with
  | some m => (.err m, s1)
  | none => (.ok (), { s1 with autoLockSet := true })

/-- keychainPath from keychain.ts line 24: the protected keychain location
derived from the service name (home directory abbreviated). -/
def keychainPath (service : String) : String :=
  "~/Library/Keychains/" ++ service ++ "-protected.keychain-db"

/-- Message of the error Node's execFileSync throws on a non-zero exit:
"Command failed: " followed by the full command line — the executable and
every argument, secrets included — and the captured stderr. -/
def commandFailedMsg (argv : List String) (stderr : String) : String :=
  "Command failed: " ++ String.intercalate " " argv ++ "\n" ++ stderr

/-- Simulated `security add-generic-password -s svc -a acct -w val -U`,
targeting the protected keychain when `protStore` is true.  On a non-zero
exit (stderr chosen by the oracle) the thrown message is Node's
command-failed message, which embeds the full argv including `-w val`. -/
def addGenericPassword (env : Env) (protStore : Bool)
    (svc acct val : String) (s : StoreState) : Result Unit × StoreState :=
  let s1 := emit s (.addCmd protStore acct val)
  match env.addFail with
  | some stderr =>
    (.err (commandFailedMsg
      (["/usr/bin/security", "add-generic-password", "-s", svc, "-a", acct,
          "-w", val, "-U"] ++
        (if protStore then [keychainPath svc] else [])) stderr), s1)
  | none =>
    if protStore then
      (.ok (), { s1 with protCreds := upsertCred s1.protCreds svc acct val })
    else
      (.ok (), { s1 with loginCreds := upsertCred s1.loginCreds svc acct val })

/-- Simulated `security find-generic-password -s svc -a acct -w`; on success
the tool prints the secret followed by a trailing newline. -/
def findGenericPassword (env : Env) (protStore : Bool)
    (svc acct : String) (s : StoreState) : Result String × StoreState :=
  let s1 := emit s (.findCmd protStore acct)
  match env.findFail with
  | some m => (.err m, s1)
  | none =>
    match findCredVal (if protStore then s1.protCreds else s1.loginCreds) svc acct with
    | some v => (.ok (v ++ "\n"), s1)
    | none => (.err notFoundMsg, s1)

/-- Simulated `security delete-generic-password -s svc -a acct`. -/
def deleteGenericPassword (env : Env) (protStore : Bool)
    (svc acct : String) (s : StoreState) : Result Unit × StoreState :=
  let s1 := emit s (.deleteCmd protStore acct)
  match env.deleteFail with
  | some m => (.err m, s1)
  | none =>
    if protStore then
      match findCredVal s1.protCreds svc acct with
      | some _ => (.ok (), { s1 with protCreds := removeCred s1.protCreds svc acct })
      | none => (.err notFoundMsg, s1)
    else
      match findCredVal s1.loginCreds svc acct with
      | some _ => (.ok (), { s1 with loginCreds := removeCred s1.loginCreds svc acct })
      | none => (.err notFoundMsg, s1)

/-- Cancellation detection of keychain.ts line 116: substring match for
"User canceled" or "-128" on the thrown message. -/
def isCancelMsg (m : String) : Bool :=
  includes m "User canceled" || includes m "-128"

/-- Catch block of unlockKeychain (keychain.ts lines 114-123): map a thrown
message either to the distinguished cancellation error or to a generic
unlock failure. -/
def unlockCatch (m : String) : Result Unit :=
  if isCancelMsg m then .err "Keychain unlock cancelled by user"
  else .err ("Failed to unlock keychain: " ++ m)

/-- unlockKeychain from keychain.ts lines 91-124: show the osascript dialog,
trim its output, unlock the keychain with that password, then apply the
auto-lock settings; any throw lands in the shared catch block. -/
def unlockKeychain (env : Env) (_cfg : SiloConfig) (s : StoreState) :
    Result Unit × StoreState :=
  match runPrompt env s with
  | (.err m, s1) => (unlockCatch m, s1)
  | (.ok raw, s1) =>
    match unlockCmdRun env (jsTrim raw) s1 with
    | (.err m, s2) => (unlockCatch m, s2)
    | (.ok _, s2) =>
      match setKeychainSettings env s2 with
      | (.err m, s3) => (unlockCatch m, s3)
      | (.ok _, s3) => (.ok (), s3)

/-- isKeychainSetup from keychain.ts line 49: existence check of the
protected keychain file. -/
def isKeychainSetup (_cfg : SiloConfig) (s : StoreState) : Bool :=
  s.protectedExists

/-- createKeychain from keychain.ts lines 53-81: succeed immediately if the
keychain file exists, otherwise run the interactive `security
create-keychain` (the user types a new password in the terminal); a newly
created keychain is left unlocked. -/
def createKeychain (env : Env) (_cfg : SiloConfig) (s : StoreState) :
    Result Unit × StoreState :=
  if s.protectedExists then (.ok (), s)
  else
    let s1 := emit s .createCmd
    match env.createFail with
    | some m => (.err ("Failed to create keychain: " ++ m), s1)
    | none => (.ok (), { s1 with protectedExists := true, locked := false })

/-- activateKeychain from keychain.ts lines 131-145: apply the auto-lock
settings (failure swallowed) and lock the keychain. -/
def activateKeychain (env : Env) (_cfg : SiloConfig) (s : StoreState) :
    StoreState :=
  lock (setKeychainSettings env s).2

/-- store from keychain.ts lines 147-186: evaluate the protection predicate
(the configured override or the default); protected accounts run
unlock-add-lock against the protected keychain (locking also in the catch
branch), unprotected accounts add to the login keychain with no locking. -/
def store (env : Env) (cfg : SiloConfig) (account value : String)
    (s : StoreState) : Result Unit × StoreState :=
  if (cfg.isProtected.getD defaultIsProtected) account then
    match unlockKeychain env cfg s with
    | (.err e, s1) => (.err e, s1)
    | (.ok _, s1) =>
      match addGenericPassword env true cfg.service account value s1 with
      | (.ok _, s2) => (.ok (), lock s2)
      | (.err m, s2) => (.err ("Failed to store secret: " ++ m), lock s2)
  else
    match addGenericPassword env false cfg.service account value s with
    | (.ok _, s2) => (.ok (), s2)
    | (.err m, s2) => (.err ("Failed to store secret: " ++ m), s2)

/-- Catch block of get (keychain.ts lines 223-233): map "could not be
found" to the distinguished not-found error carrying the account name,
anything else to a generic read failure. -/
def getCatch (account m : String) : Result String :=
  if includes m "could not be found" then
    .err ("No secret found for \"" ++ account ++ "\"")
  else .err ("Keychain read failed: " ++ m)

/-- get from keychain.ts lines 188-234: same routing as store; the raw
secret is trimmed before being returned. -/
def get (env : Env) (cfg : SiloConfig) (account : String) (s : StoreState) :
    Result String × StoreState :=
  if (cfg.isProtected.getD defaultIsProtected) account then
    match unlockKeychain env cfg s with
    | (.err e, s1) => (.err e, s1)
    | (.ok _, s1) =>
      match findGenericPassword env true cfg.service account s1 with
      | (.ok raw, s2) => (.ok (jsTrim raw), lock s2)
      | (.err m, s2) => (getCatch account m, lock s2)
  else
    match findGenericPassword env false cfg.service account s with
    | (.ok raw, s2) => (.ok (jsTrim raw), s2)
    | (.err m, s2) => (getCatch account m, s2)

/-- Catch block of remove (keychain.ts lines 265-275). -/
def removeCatch (account m : String) : Result Unit :=
  if includes m "could not be found" then
    .err ("No secret found for \"" ++ account ++ "\"")
  else .err ("Failed to delete secret: " ++ m)

/-- remove from keychain.ts lines 236-276: same routing and error mapping
as get, around delete-generic-password. -/
def remove (env : Env) (cfg : SiloConfig) (account : String) (s : StoreState) :
    Result Unit × StoreState :=
  if (cfg.isProtected.getD defaultIsProtected) account then
    match unlockKeychain env cfg s with
    | (.err e, s1) => (.err e, s1)
    | (.ok _, s1) =>
      match deleteGenericPassword env true cfg.service account s1 with
      | (.ok _, s2) => (.ok (), lock s2)
      | (.err m, s2) => (removeCatch account m, lock s2)
  else
    match deleteGenericPassword env false cfg.service account s with
    | (.ok _, s2) => (.ok (), s2)
    | (.err m, s2) => (removeCatch account m, s2)

/-- Human-facing prompts among the events: the osascript dialog and the
interactive keychain-creation password entry. -/
def isHumanPrompt : Event → Bool
  | .promptShown => true
  | .createCmd => true
  | _ => false

/-- Number of human prompts in a trace. -/
def countPrompts (l : List Event) : Nat :=
  (l.filter isHumanPrompt).length

/-- Routing of an event: `some true` for a credential operation against the
protected keychain, `some false` against the login keychain, `none` for
non-credential commands. -/
def routeOf : Event → Option Bool
  | .addCmd p _ _ => some p
  | .findCmd p _ => some p
  | .deleteCmd p _ => some p
  | _ => none

/-- Error component of a Result, if any. -/
def errOf {α : Type} : Result α → Option String
  | .ok _ => none
  | .err e => some e

/-- Whether a Result is a failure whose error message contains `sub`. -/
def errContains {α : Type} (r : Result α) (sub : String) : Bool :=
  match r with
  | .ok _ => false
  | .err e => includes e sub

/-- Baseline state: protected keychain exists, locked, no credentials. -/
def initState : StoreState :=
  ⟨true, true, [], [], false, []⟩

/-- Fresh state: no protected keychain yet. -/
def freshState : StoreState :=
  ⟨false, true, [], [], false, []⟩

/-- Benign oracle: the dialog returns "pw" and every command succeeds. -/
def envOk : Env :=
  ⟨.text "pw", none, none, none, none, none, none⟩

/-- Config used in concrete runs: service "app", default predicate. -/
def cfg0 : SiloConfig :=
  ⟨"app", none⟩

/-- Oracle where the human cancels the osascript dialog: the command throws
the standard macOS cancellation message. -/
def cancelEnv : Env :=
  ⟨.thrown "execution error: User canceled. (-128)", none, none, none, none, none, none⟩

/-- Oracle where the dialog succeeds but the unlock command fails with a
message that merely mentions "-128" without being a cancellation. -/
def falsePositiveEnv : Env :=
  ⟨.text "pw", some "exit status -128", none, none, none, none, none⟩

/-! Helper lemmas about the simulated adapter. -/

@[simp]
lemma emit_locked (s : StoreState) (e : Event) : (emit s e).locked = s.locked := rfl

@[simp]
lemma emit_protCreds (s : StoreState) (e : Event) : (emit s e).protCreds = s.protCreds := rfl

@[simp]
lemma emit_loginCreds (s : StoreState) (e : Event) : (emit s e).loginCreds = s.loginCreds := rfl

@[simp]
lemma emit_protectedExists (s : StoreState) (e : Event) :
    (emit s e).protectedExists = s.protectedExists := rfl

@[simp]
lemma emit_events (s : StoreState) (e : Event) : (emit s e).events = s.events ++ [e] := rfl

@[simp]
lemma lock_locked (s : StoreState) : (lock s).locked = true := rfl

@[simp]
lemma lock_protCreds (s : StoreState) : (lock s).protCreds = s.protCreds := rfl

@[simp]
lemma lock_loginCreds (s : StoreState) : (lock s).loginCreds = s.loginCreds := rfl

@[simp]
lemma lock_events (s : StoreState) : (lock s).events = s.events ++ [Event.lockCmd] := rfl

/-- Unlock failures with the auto-lock-settings step succeeding leave the
lock state unchanged: the keychain is only ever unlocked on the path where
`unlock-keychain` succeeds, and then the settings step succeeds too. -/
lemma unlockKeychain_err_locked (env : Env) (cfg : SiloConfig) (s : StoreState)
    (hs : env.settingsFail = none) :
    ∀ e s1, unlockKeychain env cfg s = (.err e, s1) → s1.locked = s.locked := by
  intro e s1 h
  obtain ⟨p, uf, sf, af, ff, df, cf⟩ := env
  simp only at hs
  subst hs
  cases p <;> cases uf <;>
    simp [unlockKeychain, runPrompt, unlockCmdRun, setKeychainSettings,
      unlockCatch, emit] at h <;>
    simp [← h.2]

/-- C1 (counterexample environment): the dialog succeeds, `unlock-keychain`
succeeds, but `set-keychain-settings` throws inside unlockKeychain. -/
def settingsFailEnv : Env :=
  ⟨.text "pw", none, some "The specified keychain could not be modified.", none, none, none, none⟩

/-- C1 counterexample: with a locked initial state and a protected account,
a `store` call during which `set-keychain-settings` fails after a successful
`unlock-keychain` returns a failure but leaves the protected store UNLOCKED:
the early `return unlock` in store sits inside the try block, so the catch
branch's lock call never runs.  This refutes the claim that the lock state
is locked after every failing call. -/
theorem store_unlocked_after_settings_failure :
    defaultIsProtected "db-production" = true ∧
    initState.locked = true ∧
    errOf (store settingsFailEnv cfg0 "db-production" "v" initState).1 =
      some "Failed to unlock keychain: The specified keychain could not be modified." ∧
    (store settingsFailEnv cfg0 "db-production" "v" initState).2.locked = false := by
  decide

/-- C1 (amended): after any store/get/remove call on a protected account
starting from a locked protected store — success, not-found, or operation
failure — the simulated protected store's lock state is locked, PROVIDED the
auto-lock-settings step of the unlock protocol does not fail; if
`set-keychain-settings` throws after a successful unlock, the call fails but
leaves the store unlocked. -/
theorem locked_after_protected_ops (env : Env) (cfg : SiloConfig) (a v : String)
    (s : StoreState)
    (hp : (cfg.isProtected.getD defaultIsProtected) a = true)
    (hl : s.locked = true) (hs : env.settingsFail = none) :
    (store env cfg a v s).2.locked = true ∧
    (get env cfg a s).2.locked = true ∧
    (remove env cfg a s).2.locked = true := by
  refine ⟨?_, ?_, ?_⟩
  · rcases hu : unlockKeychain env cfg s with ⟨r, s1⟩
    cases r with
    | err e =>
      have h2 := unlockKeychain_err_locked env cfg s hs e s1 hu
      simp [store, hp, hu, h2, hl]
    | ok u =>
      rcases ha : addGenericPassword env true cfg.service a v s1 with ⟨r2, s2⟩
      cases r2 <;> simp [store, hp, hu, ha]
  · rcases hu : unlockKeychain env cfg s with ⟨r, s1⟩
    cases r with
    | err e =>
      have h2 := unlockKeychain_err_locked env cfg s hs e s1 hu
      simp [get, hp, hu, h2, hl]
    | ok u =>
      rcases ha : findGenericPassword env true cfg.service a s1 with ⟨r2, s2⟩
      cases r2 <;> simp [get, hp, hu, ha]
  · rcases hu : unlockKeychain env cfg s with ⟨r, s1⟩
    cases r with
    | err e =>
      have h2 := unlockKeychain_err_locked env cfg s hs e s1 hu
      simp [remove, hp, hu, h2, hl]
    | ok u =>
      rcases ha : deleteGenericPassword env true cfg.service a s1 with ⟨r2, s2⟩
      cases r2 <;> simp [remove, hp, hu, ha]

/-- Witness for C1's amended theorem at a concrete protected run. -/
theorem locked_after_protected_ops_witness :
    (store envOk cfg0 "db-production" "v" initState).2.locked = true ∧
    (get envOk cfg0 "db-production" initState).2.locked = true ∧
    (remove envOk cfg0 "db-production" initState).2.locked = true :=
  locked_after_protected_ops envOk cfg0 "db-production" "v" initState
    (by decide) (by decide) rfl

/-- C2: if the human-facing prompt reports cancellation (the osascript call
throws with a cancel-marked message), store/get/remove on a protected
account return the distinguished cancelled outcome — the exact error
"Keychain unlock cancelled by user", not a generic failure — and no
credential in either store is added, changed, or removed. -/
theorem cancelled_prompt_no_mutation (env : Env) (cfg : SiloConfig)
    (a v m : String) (s : StoreState)
    (hp : (cfg.isProtected.getD defaultIsProtected) a = true)
    (hm : env.prompt = .thrown m) (hc : isCancelMsg m = true) :
    ((store env cfg a v s).1 = .err "Keychain unlock cancelled by user" ∧
      (store env cfg a v s).2.protCreds = s.protCreds ∧
      (store env cfg a v s).2.loginCreds = s.loginCreds) ∧
    ((get env cfg a s).1 = .err "Keychain unlock cancelled by user" ∧
      (get env cfg a s).2.protCreds = s.protCreds ∧
      (get env cfg a s).2.loginCreds = s.loginCreds) ∧
    ((remove env cfg a s).1 = .err "Keychain unlock cancelled by user" ∧
      (remove env cfg a s).2.protCreds = s.protCreds ∧
      (remove env cfg a s).2.loginCreds = s.loginCreds) := by
  simp [store, get, remove, unlockKeychain, runPrompt, unlockCatch, hp, hm, hc]

/-- Witness for C2 at a concrete cancelled protected run. -/
theorem cancelled_prompt_no_mutation_witness :
    ((store cancelEnv cfg0 "db-production" "v" initState).1 =
        .err "Keychain unlock cancelled by user" ∧
      (store cancelEnv cfg0 "db-production" "v" initState).2.protCreds = initState.protCreds ∧
      (store cancelEnv cfg0 "db-production" "v" initState).2.loginCreds = initState.loginCreds) ∧
    ((get cancelEnv cfg0 "db-production" initState).1 =
        .err "Keychain unlock cancelled by user" ∧
      (get cancelEnv cfg0 "db-production" initState).2.protCreds = initState.protCreds ∧
      (get cancelEnv cfg0 "db-production" initState).2.loginCreds = initState.loginCreds) ∧
    ((remove cancelEnv cfg0 "db-production" initState).1 =
        .err "Keychain unlock cancelled by user" ∧
      (remove cancelEnv cfg0 "db-production" initState).2.protCreds = initState.protCreds ∧
      (remove cancelEnv cfg0 "db-production" initState).2.loginCreds = initState.loginCreds) :=
  cancelled_prompt_no_mutation cancelEnv cfg0 "db-production" "v"
    "execution error: User canceled. (-128)" initState (by decide) rfl (by decide)

/-- Environment where the prompt run reports the empty password: the dialog
returns empty text, and the subsequent unlock attempt with the empty
password fails with a wrong-passphrase message. -/
def emptyPromptEnv : Env :=
  ⟨.text "", some "The user name or passphrase you entered is not correct.",
    none, none, none, none, none⟩

/-- C3: the code does NOT reject an empty password as cancellation.  When
the dialog yields the empty password, unlockKeychain passes "" straight to
the store's unlock operation (the trace contains `unlockCmd ""`), and the
resulting failure is reported as a generic unlock failure, not as the
distinguished cancelled outcome. -/
theorem empty_password_forwarded_to_unlock :
    Event.unlockCmd "" ∈ (unlockKeychain emptyPromptEnv cfg0 initState).2.events ∧
    (unlockKeychain emptyPromptEnv cfg0 initState).1 =
      .err ("Failed to unlock keychain: The user name or passphrase you entered is not correct.") ∧
    (unlockKeychain emptyPromptEnv cfg0 initState).1 ≠
      .err "Keychain unlock cancelled by user" ∧
    (store emptyPromptEnv cfg0 "db-production" "v" initState).1 =
      .err ("Failed to unlock keychain: The user name or passphrase you entered is not correct.") := by
  decide

/-- Oracle where add-generic-password exits non-zero with a permissions
error on stderr; every other command succeeds. -/
def addFailEnv : Env :=
  ⟨.text "pw", none, none,
    some "security: SecKeychainItemCreateFromContent: Write permissions error.",
    none, none, none⟩

set_option maxRecDepth 8192 in
/-- C4: the claim fails on the code — when `add-generic-password` exits
non-zero, execFileSync's thrown message is "Command failed: " plus the full
command line, which includes `-w <secret>`, and store wraps that message
into its returned error.  At this failing run the returned error string
contains the secret value, and two runs differing only in the secret value
produce different error messages on the same failure. -/
theorem store_error_embeds_secret :
    errContains (store addFailEnv cfg0 "db-staging" "s3cret" initState).1 "s3cret" = true ∧
    errOf (store addFailEnv cfg0 "db-staging" "s3cret" initState).1 =
      some ("Failed to store secret: Command failed: " ++
        "/usr/bin/security add-generic-password -s app -a db-staging -w s3cret -U" ++
        "\nsecurity: SecKeychainItemCreateFromContent: Write permissions error.") ∧
    errOf (store addFailEnv cfg0 "db-staging" "s3cret" initState).1 ≠
      errOf (store addFailEnv cfg0 "db-staging" "hunter2" initState).1 := by
  decide

/-- Events appended by add-generic-password: exactly one add command. -/
lemma addGP_events (env : Env) (b : Bool) (svc acct val : String) (s : StoreState) :
    (addGenericPassword env b svc acct val s).2.events =
      s.events ++ [Event.addCmd b acct val] := by
  simp only [addGenericPassword]
  split
  · rfl
  · split <;> rfl

/-- Events appended by find-generic-password: exactly one find command. -/
lemma findGP_events (env : Env) (b : Bool) (svc acct : String) (s : StoreState) :
    (findGenericPassword env b svc acct s).2.events =
      s.events ++ [Event.findCmd b acct] := by
  simp only [findGenericPassword]
  split
  · rfl
  · split <;> rfl

/-- Events appended by delete-generic-password: exactly one delete command. -/
lemma deleteGP_events (env : Env) (b : Bool) (svc acct : String) (s : StoreState) :
    (deleteGenericPassword env b svc acct s).2.events =
      s.events ++ [Event.deleteCmd b acct] := by
  simp only [deleteGenericPassword]
  split
  · rfl
  · split <;> split <;> rfl

/-- Events appended by the unlock protocol never include a credential
operation: only the dialog, the unlock command and the settings command. -/
lemma unlockKeychain_events (env : Env) (cfg : SiloConfig) (s : StoreState) :
    ∃ l, (unlockKeychain env cfg s).2.events = s.events ++ l ∧
      ∀ e ∈ l, routeOf e = none := by
  obtain ⟨p, uf, sf, af, ff, df, cf⟩ := env
  cases p with
  | thrown m =>
    refine ⟨[.promptShown], by simp [unlockKeychain, runPrompt], ?_⟩
    intro e he
    simp only [List.mem_cons, List.not_mem_nil, or_false] at he
    subst he
    rfl
  | text raw =>
    cases uf with
    | some m =>
      refine ⟨[.promptShown, .unlockCmd (jsTrim raw)],
        by simp [unlockKeychain, runPrompt, unlockCmdRun], ?_⟩
      intro e he
      simp only [List.mem_cons, List.not_mem_nil, or_false] at he
      rcases he with rfl | rfl <;> rfl
    | none =>
      cases sf with
      | some m =>
        refine ⟨[.promptShown, .unlockCmd (jsTrim raw), .settingsCmd],
          by simp [unlockKeychain, runPrompt, unlockCmdRun, setKeychainSettings], ?_⟩
        intro e he
        simp only [List.mem_cons, List.not_mem_nil, or_false] at he
        rcases he with rfl | rfl | rfl <;> rfl
      | none =>
        refine ⟨[.promptShown, .unlockCmd (jsTrim raw), .settingsCmd],
          by simp [unlockKeychain, runPrompt, unlockCmdRun, setKeychainSettings], ?_⟩
        intro e he
        simp only [List.mem_cons, List.not_mem_nil, or_false] at he
        rcases he with rfl | rfl | rfl <;> rfl

/-- Every credential command issued by `store` targets the keychain chosen
by the configured predicate. -/
lemma store_events (env : Env) (cfg : SiloConfig) (a v : String) (s : StoreState) :
    ∃ l, (store env cfg a v s).2.events = s.events ++ l ∧
      ∀ e ∈ l, routeOf e = none ∨
        routeOf e = some ((cfg.isProtected.getD defaultIsProtected) a) := by
  cases hb : (cfg.isProtected.getD defaultIsProtected) a
  case false =>
    rcases h1 : addGenericPassword env false cfg.service a v s with ⟨r, t⟩
    have hev := addGP_events env false cfg.service a v s
    rw [h1] at hev
    dsimp only at hev
    refine ⟨[Event.addCmd false a v], ?_, ?_⟩
    · cases r <;> simp [store, hb, h1, hev]
    · intro e he
      simp only [List.mem_cons, List.not_mem_nil, or_false] at he
      subst he
      right
      simp [routeOf, hb]
  case true =>
    obtain ⟨l, hl, hr⟩ := unlockKeychain_events env cfg s
    rcases hu : unlockKeychain env cfg s with ⟨r, s1⟩
    rw [hu] at hl
    dsimp only at hl
    cases r with
    | err e0 =>
      refine ⟨l, by simp [store, hb, hu, hl], fun e he => Or.inl (hr e he)⟩
    | ok u =>
      rcases ha : addGenericPassword env true cfg.service a v s1 with ⟨r2, s2⟩
      have hev := addGP_events env true cfg.service a v s1
      rw [ha] at hev
      dsimp only at hev
      refine ⟨l ++ [Event.addCmd true a v] ++ [Event.lockCmd], ?_, ?_⟩
      · cases r2 <;> simp [store, hb, hu, ha, hev, hl]
      · intro e he
        simp only [List.mem_append, List.mem_cons, List.not_mem_nil, or_false] at he
        rcases he with (he | rfl) | rfl
        · exact Or.inl (hr e he)
        · right
          simp [routeOf, hb]
        · exact Or.inl rfl

/-- Every credential command issued by `get` targets the keychain chosen by
the configured predicate. -/
lemma get_events (env : Env) (cfg : SiloConfig) (a : String) (s : StoreState) :
    ∃ l, (get env cfg a s).2.events = s.events ++ l ∧
      ∀ e ∈ l, routeOf e = none ∨
        routeOf e = some ((cfg.isProtected.getD defaultIsProtected) a) := by
  cases hb : (cfg.isProtected.getD defaultIsProtected) a
  case false =>
    rcases h1 : findGenericPassword env false cfg.service a s with ⟨r, t⟩
    have hev := findGP_events env false cfg.service a s
    rw [h1] at hev
    dsimp only at hev
    refine ⟨[Event.findCmd false a], ?_, ?_⟩
    · cases r <;> simp [get, hb, h1, hev]
    · intro e he
      simp only [List.mem_cons, List.not_mem_nil, or_false] at he
      subst he
      right
      simp [routeOf, hb]
  case true =>
    obtain ⟨l, hl, hr⟩ := unlockKeychain_events env cfg s
    rcases hu : unlockKeychain env cfg s with ⟨r, s1⟩
    rw [hu] at hl
    dsimp only at hl
    cases r with
    | err e0 =>
      refine ⟨l, by simp [get, hb, hu, hl], fun e he => Or.inl (hr e he)⟩
    | ok u =>
      rcases ha : findGenericPassword env true cfg.service a s1 with ⟨r2, s2⟩
      have hev := findGP_events env true cfg.service a s1
      rw [ha] at hev
      dsimp only at hev
      refine ⟨l ++ [Event.findCmd true a] ++ [Event.lockCmd], ?_, ?_⟩
      · cases r2 <;> simp [get, hb, hu, ha, hev, hl]
      · intro e he
        simp only [List.mem_append, List.mem_cons, List.not_mem_nil, or_false] at he
        rcases he with (he | rfl) | rfl
        · exact Or.inl (hr e he)
        · right
          simp [routeOf, hb]
        · exact Or.inl rfl

/-- Every credential command issued by `remove` targets the keychain chosen
by the configured predicate. -/
lemma remove_events (env : Env) (cfg : SiloConfig) (a : String) (s : StoreState) :
    ∃ l, (remove env cfg a s).2.events = s.events ++ l ∧
      ∀ e ∈ l, routeOf e = none ∨
        routeOf e = some ((cfg.isProtected.getD defaultIsProtected) a) := by
  cases hb : (cfg.isProtected.getD defaultIsProtected) a
  case false =>
    rcases h1 : deleteGenericPassword env false cfg.service a s with ⟨r, t⟩
    have hev := deleteGP_events env false cfg.service a s
    rw [h1] at hev
    dsimp only at hev
    refine ⟨[Event.deleteCmd false a], ?_, ?_⟩
    · cases r <;> simp [remove, hb, h1, hev]
    · intro e he
      simp only [List.mem_cons, List.not_mem_nil, or_false] at he
      subst he
      right
      simp [routeOf, hb]
  case true =>
    obtain ⟨l, hl, hr⟩ := unlockKeychain_events env cfg s
    rcases hu : unlockKeychain env cfg s with ⟨r, s1⟩
    rw [hu] at hl
    dsimp only at hl
    cases r with
    | err e0 =>
      refine ⟨l, by simp [remove, hb, hu, hl], fun e he => Or.inl (hr e he)⟩
    | ok u =>
      rcases ha : deleteGenericPassword env true cfg.service a s1 with ⟨r2, s2⟩
      have hev := deleteGP_events env true cfg.service a s1
      rw [ha] at hev
      dsimp only at hev
      refine ⟨l ++ [Event.deleteCmd true a] ++ [Event.lockCmd], ?_, ?_⟩
      · cases r2 <;> simp [remove, hb, hu, ha, hev, hl]
      · intro e he
        simp only [List.mem_append, List.mem_cons, List.not_mem_nil, or_false] at he
        rcases he with (he | rfl) | rfl
        · exact Or.inl (hr e he)
        · right
          simp [routeOf, hb]
        · exact Or.inl rfl

/-- C5: the routing decision of store/get/remove sends every credential
operation to the protected store iff the configured predicate holds of the
account — starting from a trace without credential commands, every add,
find or delete command in the trace targets the protected keychain exactly
when the predicate is true; the predicate is `config.isProtected` when
supplied (completely replacing the default) and otherwise the default,
which is true iff the account contains the substring "production". -/
theorem routing_matches_predicate (env : Env) (cfg : SiloConfig) (a v : String)
    (s : StoreState) (h0 : ∀ e ∈ s.events, routeOf e = none) :
    (∀ e ∈ (store env cfg a v s).2.events,
      routeOf e = none ∨ routeOf e = some ((cfg.isProtected.getD defaultIsProtected) a)) ∧
    (∀ e ∈ (get env cfg a s).2.events,
      routeOf e = none ∨ routeOf e = some ((cfg.isProtected.getD defaultIsProtected) a)) ∧
    (∀ e ∈ (remove env cfg a s).2.events,
      routeOf e = none ∨ routeOf e = some ((cfg.isProtected.getD defaultIsProtected) a)) ∧
    (∀ x, defaultIsProtected x = includes x "production") ∧
    (∀ f, cfg.isProtected = some f →
      (cfg.isProtected.getD defaultIsProtected) a = f a) := by
  refine ⟨?_, ?_, ?_, fun x => rfl, fun f hf => by simp [hf]⟩
  · obtain ⟨l, hl, hr⟩ := store_events env cfg a v s
    intro e he
    rw [hl] at he
    rcases List.mem_append.1 he with h | h
    · exact Or.inl (h0 e h)
    · exact hr e h
  · obtain ⟨l, hl, hr⟩ := get_events env cfg a s
    intro e he
    rw [hl] at he
    rcases List.mem_append.1 he with h | h
    · exact Or.inl (h0 e h)
    · exact hr e h
  · obtain ⟨l, hl, hr⟩ := remove_events env cfg a s
    intro e he
    rw [hl] at he
    rcases List.mem_append.1 he with h | h
    · exact Or.inl (h0 e h)
    · exact hr e h

/-- Witness for C5 at a concrete protected run from an empty trace. -/
theorem routing_matches_predicate_witness :
    (∀ e ∈ (store envOk cfg0 "db-production" "v" initState).2.events,
      routeOf e = none ∨ routeOf e = some true) ∧
    (∀ e ∈ (get envOk cfg0 "db-production" initState).2.events,
      routeOf e = none ∨ routeOf e = some true) ∧
    (∀ e ∈ (remove envOk cfg0 "db-production" initState).2.events,
      routeOf e = none ∨ routeOf e = some true) ∧
    (∀ x, defaultIsProtected x = includes x "production") ∧
    (∀ f, cfg0.isProtected = some f →
      (cfg0.isProtected.getD defaultIsProtected) "db-production" = f "db-production") :=
  routing_matches_predicate envOk cfg0 "db-production" "v" initState
    (by intro e he; simp [initState] at he)

/-- Trimming from the right absorbs a trailing newline. -/
lemma trimRightL_append_newline (l : List Char) :
    trimRightL (l ++ ['\n']) = trimRightL l := by
  simp [trimRightL, List.dropWhile]

/-- The facade's trim of the raw find output absorbs the trailing newline
the store adapter appends to the secret. -/
lemma jsTrim_append_newline (v : String) : jsTrim (v ++ "\n") = jsTrim v := by
  have h : (v ++ "\n").data = v.data ++ ['\n'] := String.data_append v "\n"
  simp [jsTrim, h, trimRightL_append_newline]

/-- A just-upserted credential is found, with its stored value. -/
lemma findCredVal_upsert (creds : List Cred) (svc acct val : String) :
    findCredVal (upsertCred creds svc acct val) svc acct = some val := by
  simp [findCredVal, upsertCred, List.find?, credMatches]

/-- C6 (amended): a successful `store(id, a, v)` followed by `get(id, a)`
returns `jsTrim v` — the secret with leading and trailing whitespace
stripped — for both protected and unprotected accounts; it returns exactly
`v` whenever `v` carries no leading/trailing whitespace.  The facade trims
the entire raw secret, not only the adapter's trailing newline, so secrets
with surrounding whitespace do not round-trip exactly. -/
theorem store_get_roundtrip (env1 env2 : Env) (cfg : SiloConfig)
    (a v pw1 pw2 : String) (s : StoreState)
    (h1p : env1.prompt = .text pw1) (h1u : env1.unlockFail = none)
    (h1s : env1.settingsFail = none) (h1a : env1.addFail = none)
    (h2p : env2.prompt = .text pw2) (h2u : env2.unlockFail = none)
    (h2s : env2.settingsFail = none) (h2f : env2.findFail = none) :
    (store env1 cfg a v s).1 = .ok () ∧
    (get env2 cfg a (store env1 cfg a v s).2).1 = .ok (jsTrim v) ∧
    (jsTrim v = v → (get env2 cfg a (store env1 cfg a v s).2).1 = .ok v) := by
  have key : (store env1 cfg a v s).1 = .ok () ∧
      (get env2 cfg a (store env1 cfg a v s).2).1 = .ok (jsTrim v) := by
    cases hb : (cfg.isProtected.getD defaultIsProtected) a <;>
      simp [store, get, unlockKeychain, runPrompt, unlockCmdRun,
        setKeychainSettings, addGenericPassword, findGenericPassword,
        hb, h1p, h1u, h1s, h1a, h2p, h2u, h2s, h2f,
        findCredVal_upsert, jsTrim_append_newline]
  refine ⟨key.1, key.2, fun hv => ?_⟩
  have h2 := key.2
  rw [hv] at h2
  exact h2

/-- Witness for C6's amended theorem at a concrete protected run. -/
theorem store_get_roundtrip_witness :
    (store envOk cfg0 "db-production" "y" initState).1 = .ok () ∧
    (get envOk cfg0 "db-production" (store envOk cfg0 "db-production" "y" initState).2).1 =
      .ok (jsTrim "y") ∧
    (jsTrim "y" = "y" →
      (get envOk cfg0 "db-production" (store envOk cfg0 "db-production" "y" initState).2).1 =
        .ok "y") :=
  store_get_roundtrip envOk envOk cfg0 "db-production" "y" "pw" "pw" initState
    rfl rfl rfl rfl rfl rfl rfl rfl

/-- C6 counterexample: the round-trip is not exact for a secret with
surrounding whitespace — storing " x" under an (unprotected) account and
reading it back yields "x", because get trims the whole raw secret. -/
theorem store_get_roundtrip_trims_cex :
    (store envOk cfg0 "db-staging" " x" initState).1 = .ok () ∧
    (get envOk cfg0 "db-staging" (store envOk cfg0 "db-staging" " x" initState).2).1 =
      .ok "x" ∧
    ("x" : String) ≠ " x" := by
  decide

/-- C7: on a fresh service, createKeychain succeeds with exactly one human
prompt (the interactive store-creation password entry) and leaves the new
keychain unlocked — but the first protected `store` call does NOT complete
with one prompt in total: store unconditionally runs the unlock protocol,
so the osascript unlock dialog appears as a second human prompt even though
the keychain is already unlocked.  This run exhibits the divergence from
the claimed single-prompt behaviour. -/
theorem fresh_create_then_store_prompts_twice :
    (createKeychain envOk cfg0 freshState).1 = .ok () ∧
    (createKeychain envOk cfg0 freshState).2.locked = false ∧
    countPrompts (createKeychain envOk cfg0 freshState).2.events = 1 ∧
    (store envOk cfg0 "db-production" "y" (createKeychain envOk cfg0 freshState).2).1 = .ok () ∧
    countPrompts
      (store envOk cfg0 "db-production" "y" (createKeychain envOk cfg0 freshState).2).2.events = 2 ∧
    Event.promptShown ∈
      (store envOk cfg0 "db-production" "y" (createKeychain envOk cfg0 freshState).2).2.events := by
  decide

/-- The canonical not-found message carries the marker substring the facade
looks for. -/
lemma includes_notFoundMsg : includes notFoundMsg "could not be found" = true := by
  decide

/-- C8: when the store adapter signals "not found" — the targeted keychain
holds no credential for the account and find/delete throws the standard
could-not-be-found message — get and remove return the distinguished
not-found error carrying the account name, not a generic operation error. -/
theorem notfound_maps_to_account_error (env : Env) (cfg : SiloConfig)
    (a pw : String) (s : StoreState)
    (hp : env.prompt = .text pw) (hu : env.unlockFail = none)
    (hs : env.settingsFail = none) (hf : env.findFail = none)
    (hd : env.deleteFail = none)
    (hmiss : findCredVal
      (if (cfg.isProtected.getD defaultIsProtected) a then s.protCreds else s.loginCreds)
      cfg.service a = none) :
    (get env cfg a s).1 = .err ("No secret found for \"" ++ a ++ "\"") ∧
    (remove env cfg a s).1 = .err ("No secret found for \"" ++ a ++ "\"") := by
  cases hb : (cfg.isProtected.getD defaultIsProtected) a <;>
    rw [hb] at hmiss <;>
    simp only [if_true, if_false, Bool.false_eq_true] at hmiss <;>
    simp [get, remove, unlockKeychain, runPrompt, unlockCmdRun,
      setKeychainSettings, findGenericPassword, deleteGenericPassword,
      getCatch, removeCatch, hb, hp, hu, hs, hf, hd, hmiss, includes_notFoundMsg]

/-- Witness for C8 at a concrete protected account missing from the store. -/
theorem notfound_maps_to_account_error_witness :
    (get envOk cfg0 "db-production" initState).1 =
      .err ("No secret found for \"" ++ "db-production" ++ "\"") ∧
    (remove envOk cfg0 "db-production" initState).1 =
      .err ("No secret found for \"" ++ "db-production" ++ "\"") :=
  notfound_maps_to_account_error envOk cfg0 "db-production" "pw" initState
    rfl rfl rfl rfl rfl (by decide)

/-- C9: createKeychain is idempotent — if the store already exists the call
succeeds without modifying anything; no call ever changes the credentials
of either store; and after any successful call a second call succeeds and
changes nothing, so calling it twice never errors and never destroys
existing credentials. -/
theorem createKeychain_idempotent (env1 env2 : Env) (cfg : SiloConfig)
    (s : StoreState) :
    (s.protectedExists = true → createKeychain env1 cfg s = (.ok (), s)) ∧
    ((createKeychain env1 cfg s).2.protCreds = s.protCreds ∧
      (createKeychain env1 cfg s).2.loginCreds = s.loginCreds) ∧
    ((createKeychain env1 cfg s).1 = .ok () →
      createKeychain env2 cfg (createKeychain env1 cfg s).2 =
        (.ok (), (createKeychain env1 cfg s).2)) := by
  obtain ⟨p1, uf1, sf1, af1, ff1, df1, cf1⟩ := env1
  cases hex : s.protectedExists <;> cases cf1 <;>
    simp [createKeychain, hex]

/-- Witness for C9: the existing-store case and a fresh creation followed
by a second call. -/
theorem createKeychain_idempotent_witness :
    createKeychain envOk cfg0 initState = (.ok (), initState) ∧
    createKeychain envOk cfg0 (createKeychain envOk cfg0 freshState).2 =
      (.ok (), (createKeychain envOk cfg0 freshState).2) :=
  ⟨(createKeychain_idempotent envOk envOk cfg0 initState).1 rfl,
    (createKeychain_idempotent envOk envOk cfg0 freshState).2.2 (by decide)⟩

/-- A generic unlock-failure message is never the distinguished
cancellation string: the two differ already in their first character. -/
lemma unlock_fail_ne_cancel (m : String) :
    ("Failed to unlock keychain: " ++ m) ≠ "Keychain unlock cancelled by user" := by
  intro h
  have h2 : ("Failed to unlock keychain: " ++ m).data.head? = some 'K' := by
    rw [h]
    rfl
  have h3 : ("Failed to unlock keychain: " ++ m).data.head? = some 'F' := by
    rw [String.data_append]
    rfl
  rw [h3] at h2
  injection h2 with h4
  exact absurd h4 (by decide)

/-- C10: cancellation is detected purely by substring matching on the
thrown message — whichever of the three external steps of the unlock
protocol throws (the dialog itself, the unlock command, or the settings
command), unlockKeychain reports the distinguished cancelled outcome iff
the message contains "User canceled" or "-128"; so a non-cancellation
failure whose message happens to contain either substring is reported as
cancelled by the user. -/
theorem cancel_detected_by_substring (env : Env) (cfg : SiloConfig)
    (m : String) (s : StoreState) :
    (isCancelMsg m = (includes m "User canceled" || includes m "-128")) ∧
    (env.prompt = .thrown m →
      ((unlockKeychain env cfg s).1 = .err "Keychain unlock cancelled by user" ↔
        isCancelMsg m = true)) ∧
    (∀ raw, env.prompt = .text raw → env.unlockFail = some m →
      ((unlockKeychain env cfg s).1 = .err "Keychain unlock cancelled by user" ↔
        isCancelMsg m = true)) ∧
    (∀ raw, env.prompt = .text raw → env.unlockFail = none → env.settingsFail = some m →
      ((unlockKeychain env cfg s).1 = .err "Keychain unlock cancelled by user" ↔
        isCancelMsg m = true)) := by
  refine ⟨rfl, ?_, ?_, ?_⟩
  · intro hm
    cases hc : isCancelMsg m <;>
      simp [unlockKeychain, runPrompt, unlockCatch, hm, hc, unlock_fail_ne_cancel m]
  · intro raw hm hu
    cases hc : isCancelMsg m <;>
      simp [unlockKeychain, runPrompt, unlockCmdRun, unlockCatch, hm, hu, hc,
        unlock_fail_ne_cancel m]
  · intro raw hm hu hs
    cases hc : isCancelMsg m <;>
      simp [unlockKeychain, runPrompt, unlockCmdRun, setKeychainSettings,
        unlockCatch, hm, hu, hs, hc, unlock_fail_ne_cancel m]

/-- Witness for C10: a wrong-password unlock failure whose message merely
mentions "-128" is misreported as user cancellation. -/
theorem cancel_detected_by_substring_witness :
    (isCancelMsg "exit status -128" =
      (includes "exit status -128" "User canceled" || includes "exit status -128" "-128")) ∧
    ((unlockKeychain falsePositiveEnv cfg0 initState).1 =
        .err "Keychain unlock cancelled by user" ↔
      isCancelMsg "exit status -128" = true) :=
  ⟨(cancel_detected_by_substring falsePositiveEnv cfg0 "exit status -128" initState).1,
    (cancel_detected_by_substring falsePositiveEnv cfg0 "exit status -128" initState).2.2.1
      "pw" rfl rfl⟩

end Silo
